import Mathlib

/-!
Verification development for a finite-element residual kernel: a shallow
embedding of the Gauss-Legendre quadrature rule table
(serac/numerics/quadrature_data.cpp), the sum-factorized
interpolate/integrate kernel pair for H1 hexahedron elements
(serac/numerics/functional/detail/hexahedron_H1.inl), and the linear
thermal-conduction material constructors
(serac/physics/materials/thermal_material.hpp).

Scalars are modelled as exact rationals: the C++ code stores decimal
literals in `double` variables and performs arithmetic on them; the claims
under study are algebraic identities and table facts, which we settle over
exact arithmetic.  Tensors indexed by compile-time extents become curried
functions out of `Fin`.
-/

/-- The mfem geometry enumeration (mfem::Geometry::Type), restricted to the
constructors this code mentions plus the remaining members of the enum. -/
inductive GeomType where
  | point
  | segment
  | triangle
  | square
  | tetrahedron
  | cube
  | prism
  | pyramid
deriving DecidableEq, Repr

/-- QuadratureRule: a pair of flat coordinate and weight arrays
(std::vector<double> points, weights), as used by GaussLegendreRule in
serac/numerics/quadrature_data.cpp; a default-constructed rule has both
arrays empty. -/
structure QuadratureRule where
  points : List ℚ
  weights : List ℚ
deriving DecidableEq, Repr

def segmentPoints1 : List ℚ :=
  [0.50000000000000000]

def segmentWeights1 : List ℚ :=
  [1.000000000000000]

def segmentPoints2 : List ℚ :=
  [0.2113248654051871, 0.7886751345948129]

def segmentWeights2 : List ℚ :=
  [0.500000000000000, 0.500000000000000]

def segmentPoints3 : List ℚ :=
  [0.1127016653792583, 0.500000000000000, 0.887298334620742]

def segmentWeights3 : List ℚ :=
  [0.277777777777778, 0.444444444444444, 0.277777777777778]

def segmentPoints4 : List ℚ :=
  [0.0694318442029737, 0.330009478207572, 0.669990521792428,
      0.930568155797026]

def segmentWeights4 : List ℚ :=
  [0.173927422568727, 0.326072577431273, 0.326072577431273,
      0.173927422568727]

def segmentPoints5 : List ℚ :=
  [0.0469100770306680, 0.230765344947158, 0.500000000000000,
      0.769234655052842, 0.953089922969332]

def segmentWeights5 : List ℚ :=
  [0.118463442528095, 0.239314335249683, 0.284444444444444,
      0.239314335249683, 0.118463442528095]

def segmentPoints6 : List ℚ :=
  [0.0337652428984240, 0.169395306766868, 0.380690406958402,
      0.619309593041598, 0.830604693233132, 0.966234757101576]

def segmentWeights6 : List ℚ :=
  [0.085662246189585, 0.180380786524069, 0.233956967286346,
      0.233956967286346, 0.180380786524069, 0.085662246189585]

def segmentPoints7 : List ℚ :=
  [0.0254460438286207, 0.129234407200303, 0.297077424311301,
      0.500000000000000, 0.702922575688699, 0.87076559279970,
      0.97455395617138]

def segmentWeights7 : List ℚ :=
  [0.0647424830844348, 0.139852695744638, 0.190915025252559,
      0.208979591836735, 0.190915025252559, 0.139852695744638,
      0.0647424830844348]

def segmentPoints8 : List ℚ :=
  [0.0198550717512319, 0.101666761293187, 0.237233795041836,
      0.408282678752175, 0.591717321247825, 0.76276620495816,
      0.89833323870681, 0.98014492824877]

def segmentWeights8 : List ℚ :=
  [0.0506142681451881, 0.111190517226687, 0.156853322938944,
      0.181341891689181, 0.181341891689181, 0.156853322938944,
      0.111190517226687, 0.0506142681451881]

def trianglePoints1 : List ℚ :=
  [0.333333333333333, 0.333333333333333]

def triangleWeights1 : List ℚ :=
  []

def trianglePoints2 : List ℚ :=
  [0.166666666666667, 0.166666666666667, 0.166666666666667,
      0.666666666666667, 0.666666666666667, 0.166666666666667]

def triangleWeights2 : List ℚ :=
  []

def trianglePoints3 : List ℚ :=
  [0.09157621350978, 0.09157621350978, 0.09157621350978,
      0.81684757298044, 0.81684757298044, 0.09157621350978,
      0.108103018168071, 0.445948490915964, 0.445948490915964,
      0.108103018168071, 0.445948490915964, 0.445948490915964]

def triangleWeights3 : List ℚ :=
  []

def trianglePoints4 : List ℚ :=
  [0.055564052669793, 0.055564052669793, 0.055564052669793,
      0.888871894660413, 0.888871894660413, 0.055564052669793,
      0.070255540518384, 0.634210747745723, 0.634210747745723,
      0.070255540518384, 0.634210747745723, 0.295533711735893,
      0.070255540518384, 0.295533711735893, 0.295533711735893,
      0.070255540518384, 0.295533711735893, 0.634210747745723,
      0.333333333333333, 0.333333333333333]

def triangleWeights4 : List ℚ :=
  []

def trianglePoints5 : List ℚ :=
  [0.035870877695734000590, 0.035870877695734000590, 0.035870877695734000590,
      0.92825824460853301190, 0.92825824460853301190, 0.035870877695734000590,
      0.24172939576796700911, 0.24172939576796700911, 0.24172939576796700911,
      0.51654120846406603729, 0.51654120846406603729, 0.24172939576796700911,
      0.051382424445842997396, 0.47430878777707902172, 0.47430878777707902172,
      0.051382424445842997396, 0.47430878777707902172, 0.47430878777707902172,
      0.047312487011716003460, 0.75118363110648400660, 0.75118363110648400660,
      0.047312487011716003460, 0.75118363110648400660, 0.20150388188179998994,
      0.047312487011716003460, 0.20150388188179998994, 0.20150388188179998994,
      0.047312487011716003460, 0.20150388188179998994, 0.75118363110648400660]

def triangleWeights5 : List ℚ :=
  []

def tetrahedronPoints1 : List ℚ :=
  [0.25, 0.25, 0.25]

def tetrahedronWeights1 : List ℚ :=
  []

def tetrahedronPoints2 : List ℚ :=
  [0.585410196624967936, 0.138196601125011008, 0.138196601125011008,
      0.138196601125011008, 0.585410196624967936, 0.138196601125011008,
      0.138196601125011008, 0.138196601125011008, 0.585410196624967936,
      0.138196601125011008, 0.138196601125011008, 0.138196601125011008]

def tetrahedronWeights2 : List ℚ :=
  []

def tetrahedronPoints3 : List ℚ :=
  [0.77849529482132992, 0.0738349017262233984, 0.0738349017262233984,
      0.0738349017262233984, 0.77849529482132992, 0.0738349017262233984,
      0.0738349017262233984, 0.0738349017262233984, 0.77849529482132992,
      0.0738349017262233984, 0.0738349017262233984, 0.0738349017262233984,
      0.406244343884051008, 0.406244343884051008, 0.0937556561159491072,
      0.406244343884051008, 0.0937556561159491072, 0.406244343884051008,
      0.406244343884051008, 0.0937556561159491072, 0.0937556561159491072,
      0.0937556561159491072, 0.406244343884051008, 0.406244343884051008,
      0.0937556561159491072, 0.406244343884051008, 0.0937556561159491072,
      0.0937556561159491072, 0.0937556561159491072, 0.406244343884051008]

def tetrahedronWeights3 : List ℚ :=
  []

def tetrahedronPoints4 : List ℚ :=
  [0.902942215818267904, 0.0323525947272438976, 0.0323525947272438976,
      0.0323525947272438976, 0.902942215818267904, 0.0323525947272438976,
      0.0323525947272438976, 0.0323525947272438976, 0.902942215818267904,
      0.0323525947272438976, 0.0323525947272438976, 0.0323525947272438976,
      0.262682583887778976, 0.616596533061936896, 0.0603604415251420928,
      0.616596533061936896, 0.262682583887778976, 0.0603604415251420928,
      0.262682583887778976, 0.0603604415251420928, 0.616596533061936896,
      0.616596533061936896, 0.0603604415251420928, 0.262682583887778976,
      0.262682583887778976, 0.0603604415251420928, 0.0603604415251420928,
      0.616596533061936896, 0.0603604415251420928, 0.0603604415251420928,
      0.0603604415251420928, 0.262682583887778976, 0.616596533061936896,
      0.0603604415251420928, 0.616596533061936896, 0.262682583887778976,
      0.0603604415251420928, 0.262682583887778976, 0.0603604415251420928,
      0.0603604415251420928, 0.616596533061936896, 0.0603604415251420928,
      0.0603604415251420928, 0.0603604415251420928, 0.262682583887778976,
      0.0603604415251420928, 0.0603604415251420928, 0.616596533061936896,
      0.309769304272861952, 0.309769304272861952, 0.309769304272861952,
      0.309769304272861952, 0.309769304272861952, 0.0706920871814129024,
      0.309769304272861952, 0.0706920871814129024, 0.309769304272861952,
      0.0706920871814129024, 0.309769304272861952, 0.309769304272861952]

def tetrahedronWeights4 : List ℚ :=
  []

def tetrahedronPoints5 : List ℚ :=
  [0.91978967333688, 0.0267367755543734976, 0.0267367755543734976,
      0.0267367755543734976, 0.91978967333688, 0.0267367755543734976,
      0.0267367755543734976, 0.0267367755543734976, 0.91978967333688,
      0.0267367755543734976, 0.0267367755543734976, 0.0267367755543734976,
      0.174035630246894016, 0.747759888481809024, 0.0391022406356488,
      0.747759888481809024, 0.174035630246894016, 0.0391022406356488,
      0.174035630246894016, 0.0391022406356488, 0.747759888481809024,
      0.747759888481809024, 0.0391022406356488, 0.174035630246894016,
      0.174035630246894016, 0.0391022406356488, 0.0391022406356488,
      0.747759888481809024, 0.0391022406356488, 0.0391022406356488,
      0.0391022406356488, 0.174035630246894016, 0.747759888481809024,
      0.0391022406356488, 0.747759888481809024, 0.174035630246894016,
      0.0391022406356488, 0.174035630246894016, 0.0391022406356488,
      0.0391022406356488, 0.747759888481809024, 0.0391022406356488,
      0.0391022406356488, 0.0391022406356488, 0.174035630246894016,
      0.0391022406356488, 0.0391022406356488, 0.747759888481809024,
      0.454754599984483008, 0.454754599984483008, 0.0452454000155171968,
      0.454754599984483008, 0.0452454000155171968, 0.454754599984483008,
      0.454754599984483008, 0.0452454000155171968, 0.0452454000155171968,
      0.0452454000155171968, 0.454754599984483008, 0.454754599984483008,
      0.0452454000155171968, 0.454754599984483008, 0.0452454000155171968,
      0.0452454000155171968, 0.0452454000155171968, 0.454754599984483008,
      0.503118645014598016, 0.223201037962315008, 0.223201037962315008,
      0.223201037962315008, 0.503118645014598016, 0.223201037962315008,
      0.223201037962315008, 0.223201037962315008, 0.503118645014598016,
      0.503118645014598016, 0.223201037962315008, 0.050479279060772,
      0.223201037962315008, 0.503118645014598016, 0.050479279060772,
      0.223201037962315008, 0.223201037962315008, 0.050479279060772,
      0.503118645014598016, 0.050479279060772, 0.223201037962315008,
      0.223201037962315008, 0.050479279060772, 0.503118645014598016,
      0.223201037962315008, 0.050479279060772, 0.223201037962315008,
      0.050479279060772, 0.503118645014598016, 0.223201037962315008,
      0.050479279060772, 0.223201037962315008, 0.503118645014598016,
      0.050479279060772, 0.223201037962315008, 0.223201037962315008,
      0.25, 0.25, 0.25]

def tetrahedronWeights5 : List ℚ :=
  []

def tetrahedronPoints6 : List ℚ :=
  [0.955143804540822016, 0.0149520651530592, 0.0149520651530592,
      0.0149520651530592, 0.955143804540822016, 0.0149520651530592,
      0.0149520651530592, 0.0149520651530592, 0.955143804540822016,
      0.0149520651530592, 0.0149520651530592, 0.0149520651530592,
      0.779976008441539968, 0.151831949165936992, 0.0340960211962614976,
      0.151831949165936992, 0.779976008441539968, 0.0340960211962614976,
      0.779976008441539968, 0.0340960211962614976, 0.151831949165936992,
      0.151831949165936992, 0.0340960211962614976, 0.779976008441539968,
      0.779976008441539968, 0.0340960211962614976, 0.0340960211962614976,
      0.151831949165936992, 0.0340960211962614976, 0.0340960211962614976,
      0.0340960211962614976, 0.779976008441539968, 0.151831949165936992,
      0.0340960211962614976, 0.151831949165936992, 0.779976008441539968,
      0.0340960211962614976, 0.779976008441539968, 0.0340960211962614976,
      0.0340960211962614976, 0.151831949165936992, 0.0340960211962614976,
      0.0340960211962614976, 0.0340960211962614976, 0.779976008441539968,
      0.0340960211962614976, 0.0340960211962614976, 0.151831949165936992,
      0.354934056063979008, 0.552655643106017024, 0.0462051504150017024,
      0.552655643106017024, 0.354934056063979008, 0.0462051504150017024,
      0.354934056063979008, 0.0462051504150017024, 0.552655643106017024,
      0.552655643106017024, 0.0462051504150017024, 0.354934056063979008,
      0.354934056063979008, 0.0462051504150017024, 0.0462051504150017024,
      0.552655643106017024, 0.0462051504150017024, 0.0462051504150017024,
      0.0462051504150017024, 0.354934056063979008, 0.552655643106017024,
      0.0462051504150017024, 0.552655643106017024, 0.354934056063979008,
      0.0462051504150017024, 0.354934056063979008, 0.0462051504150017024,
      0.0462051504150017024, 0.552655643106017024, 0.0462051504150017024,
      0.0462051504150017024, 0.0462051504150017024, 0.354934056063979008,
      0.0462051504150017024, 0.0462051504150017024, 0.552655643106017024,
      0.538104322888002048, 0.228190461068760992, 0.228190461068760992,
      0.228190461068760992, 0.538104322888002048, 0.228190461068760992,
      0.228190461068760992, 0.228190461068760992, 0.538104322888002048,
      0.538104322888002048, 0.228190461068760992, 0.00551475497447749952,
      0.228190461068760992, 0.538104322888002048, 0.00551475497447749952,
      0.228190461068760992, 0.228190461068760992, 0.00551475497447749952,
      0.538104322888002048, 0.00551475497447749952, 0.228190461068760992,
      0.228190461068760992, 0.00551475497447749952, 0.538104322888002048,
      0.228190461068760992, 0.00551475497447749952, 0.228190461068760992,
      0.00551475497447749952, 0.538104322888002048, 0.228190461068760992,
      0.00551475497447749952, 0.228190461068760992, 0.538104322888002048,
      0.00551475497447749952, 0.228190461068760992, 0.228190461068760992,
      0.19618375957456, 0.352305260087993984, 0.352305260087993984,
      0.352305260087993984, 0.19618375957456, 0.352305260087993984,
      0.352305260087993984, 0.352305260087993984, 0.19618375957456,
      0.19618375957456, 0.352305260087993984, 0.0992057202494530048,
      0.352305260087993984, 0.19618375957456, 0.0992057202494530048,
      0.352305260087993984, 0.352305260087993984, 0.0992057202494530048,
      0.19618375957456, 0.0992057202494530048, 0.352305260087993984,
      0.352305260087993984, 0.0992057202494530048, 0.19618375957456,
      0.352305260087993984, 0.0992057202494530048, 0.352305260087993984,
      0.0992057202494530048, 0.19618375957456, 0.352305260087993984,
      0.0992057202494530048, 0.352305260087993984, 0.19618375957456,
      0.0992057202494530048, 0.352305260087993984, 0.352305260087993984,
      0.59656499562101696, 0.134478334792994016, 0.134478334792994016,
      0.134478334792994016, 0.59656499562101696, 0.134478334792994016,
      0.134478334792994016, 0.134478334792994016, 0.59656499562101696,
      0.134478334792994016, 0.134478334792994016, 0.134478334792994016]

def tetrahedronWeights6 : List ℚ :=
  []

/-- GaussLegendreRule(geom, PointsPerDimension) from quadrature_data.cpp:
the segment cases 1..8 fill both points and weights; the triangle cases 1..5
and tetrahedron cases 1..6 fill points (flattened coordinate tuples) and set
the weights to the empty list, exactly as the source does
(rule.weights = \x7b\x7d); any other (geometry, n) combination falls through
every switch and returns the default-constructed empty rule. -/
def gaussLegendreRule (geom : GeomType) (n : ℕ) : QuadratureRule :=
  if geom = GeomType.segment then
    match n with
    | 1 => ⟨segmentPoints1, segmentWeights1⟩
    | 2 => ⟨segmentPoints2, segmentWeights2⟩
    | 3 => ⟨segmentPoints3, segmentWeights3⟩
    | 4 => ⟨segmentPoints4, segmentWeights4⟩
    | 5 => ⟨segmentPoints5, segmentWeights5⟩
    | 6 => ⟨segmentPoints6, segmentWeights6⟩
    | 7 => ⟨segmentPoints7, segmentWeights7⟩
    | 8 => ⟨segmentPoints8, segmentWeights8⟩
    | _ => ⟨[], []⟩
  else if geom = GeomType.triangle then
    match n with
    | 1 => ⟨trianglePoints1, triangleWeights1⟩
    | 2 => ⟨trianglePoints2, triangleWeights2⟩
    | 3 => ⟨trianglePoints3, triangleWeights3⟩
    | 4 => ⟨trianglePoints4, triangleWeights4⟩
    | 5 => ⟨trianglePoints5, triangleWeights5⟩
    | _ => ⟨[], []⟩
  else if geom = GeomType.tetrahedron then
    match n with
    | 1 => ⟨tetrahedronPoints1, tetrahedronWeights1⟩
    | 2 => ⟨tetrahedronPoints2, tetrahedronWeights2⟩
    | 3 => ⟨tetrahedronPoints3, tetrahedronWeights3⟩
    | 4 => ⟨tetrahedronPoints4, tetrahedronWeights4⟩
    | 5 => ⟨tetrahedronPoints5, tetrahedronWeights5⟩
    | 6 => ⟨tetrahedronPoints6, tetrahedronWeights6⟩
    | _ => ⟨[], []⟩
  else ⟨[], []⟩

/-- polynomial_order_LUT from quadrature_data.cpp: a map from geometry to a
vector of 1D point counts; std::map::operator[] default-constructs an empty
vector for a key not in the map, which the catch-all arm mirrors. -/
def polynomial_order_LUT : GeomType → List ℕ
  | GeomType.segment => [1, 2, 3, 4, 5]
  | GeomType.triangle => [1, 2, 3, 4, 5]
  | GeomType.tetrahedron => [1, 2, 3, 4, 5]
  | _ => []

/-- The vector subscript polynomial_order_LUT[geom][order.p] performed by the
PolynomialOrder overload of GaussLegendreRule; C++ operator[] has no bounds
check, so an out-of-range index is modelled as none. -/
def lutLookup (geom : GeomType) (p : ℕ) : Option ℕ :=
  (polynomial_order_LUT geom).get? p

/-- GaussLegendreRule(geom, PolynomialOrder) from quadrature_data.cpp:
delegates to the PointsPerDimension overload at the looked-up point count
(none when the subscript into the lookup table is out of bounds). -/
def gaussLegendreRuleByOrder (geom : GeomType) (p : ℕ) : Option QuadratureRule :=
  (lutLookup geom p).map (gaussLegendreRule geom)

/-! ## The H1 hexahedron sum-factorized kernel

Shallow embedding of finite_element<Geometry::Hexahedron, H1<p,c>> from
hexahedron_H1.inl.  The element has n := p+1 nodes per axis; a dof tensor is
indexed (component, node_z, node_y, node_x); quadrature-point data is indexed
(qz, qy, qx).  The 1D basis tables B and G (values and derivatives of the
Gauss-Lobatto nodal basis at the 1D Gauss-Legendre points) and the 1D weight
table are produced by polynomials.hpp, which is outside the embedded sources;
the kernel is therefore parameterized by arbitrary tables of the right shape,
and concrete instances are supplied where a claim needs them. -/

/-- dof_type: tensor<double, c, p+1, p+1, p+1>, indexed (i, dz, dy, dx). -/
def Dof (c p : ℕ) : Type := Fin c → Fin (p + 1) → Fin (p + 1) → Fin (p + 1) → ℚ

/-- The per-quadrature-point Jacobian argument
tensor<double, dim, dim, q, q, q>. -/
def JacField (q : ℕ) : Type := Fin 3 → Fin 3 → Fin q → Fin q → Fin q → ℚ

/-- cpu_batched_values_type<q>: tensor<tensor<double,c>, q, q, q>,
indexed (qz, qy, qx, i). -/
def QVals (c q : ℕ) : Type := Fin q → Fin q → Fin q → Fin c → ℚ

/-- cpu_batched_derivatives_type<q>: tensor<tensor<double,c,3>, q, q, q>,
indexed (qz, qy, qx, i, k). -/
def QGrads (c q : ℕ) : Type := Fin q → Fin q → Fin q → Fin c → Fin 3 → ℚ

/-- A 1D basis table tensor<double, q, n>, row = quadrature point. -/
def BasisTable (q n : ℕ) : Type := Fin q → Fin n → ℚ

/-- A 3x3 matrix of scalars. -/
def Mat3 : Type := Fin 3 → Fin 3 → ℚ

/-- Determinant of a 3x3 matrix by cofactor expansion along the first row,
the formula computed by det() in the serac tensor library.
Modelled from the spec: serac/numerics/functional/tensor.hpp is not among
the embedded sources; the spec refers to the mathematical determinant. -/
def det3 (A : Mat3) : ℚ :=
  A 0 0 * (A 1 1 * A 2 2 - A 1 2 * A 2 1)
    - A 0 1 * (A 1 0 * A 2 2 - A 1 2 * A 2 0)
    + A 0 2 * (A 1 0 * A 2 1 - A 1 1 * A 2 0)

/-- Inverse of a 3x3 matrix: transposed cofactor matrix over the determinant.
Modelled from the spec: inv() of serac/numerics/functional/tensor.hpp is not
among the embedded sources; the spec refers to the mathematical inverse
Jacobian.  Total function; a singular argument divides by zero, which yields
0 entries in ℚ and is only ever used under an invertibility hypothesis. -/
def inv3 (A : Mat3) : Mat3 := fun r s =>
  (![![A 1 1 * A 2 2 - A 1 2 * A 2 1, A 0 2 * A 2 1 - A 0 1 * A 2 2,
      A 0 1 * A 1 2 - A 0 2 * A 1 1],
    ![A 1 2 * A 2 0 - A 1 0 * A 2 2, A 0 0 * A 2 2 - A 0 2 * A 2 0,
      A 0 2 * A 1 0 - A 0 0 * A 1 2],
    ![A 1 0 * A 2 1 - A 1 1 * A 2 0, A 0 1 * A 2 0 - A 0 0 * A 2 1,
      A 0 0 * A 1 1 - A 0 1 * A 1 0]] : Mat3) r s / det3 A

/-- The matrix J built inside interpolate (hexahedron_H1.inl:198-203):
J[row][col] = jacobians(col, row, qz, qy, qx) - note the transposed read. -/
def jInterpAt (jac : JacField q) (qz qy qx : Fin q) : Mat3 :=
  fun row col => jac col row qz qy qx

/-- The matrix J_T built inside integrate (hexahedron_H1.inl:247-252):
J_T[row][col] = jacobians(row, col, qz, qy, qx). -/
def jIntegAt (jac : JacField q) (qz qy qx : Fin q) : Mat3 :=
  fun row col => jac row col qz qy qx

/-- First interpolation pass (hexahedron_H1.inl:152-164): contract the x-axis
of one component of the dof tensor against a 1D table M (B for slot 0, G for
slot 1): A1(slot, dz, dy, qx) = sum_dx M(qx, dx) * X(i, dz, dy, dx). -/
def interpA1 (M : BasisTable q (p + 1))
    (Xi : Fin (p + 1) → Fin (p + 1) → Fin (p + 1) → ℚ)
    (dz dy : Fin (p + 1)) (qx : Fin q) : ℚ :=
  ∑ dx, M qx dx * Xi dz dy dx

/-- Second interpolation pass (hexahedron_H1.inl:166-180): contract the
y-axis of a first-pass cache slot against a 1D table M:
A2(·, dz, qy, qx) = sum_dy M(qy, dy) * A1(·, dz, dy, qx). -/
def interpA2 (M : BasisTable q (p + 1))
    (a1 : Fin (p + 1) → Fin (p + 1) → Fin q → ℚ)
    (dz : Fin (p + 1)) (qy qx : Fin q) : ℚ :=
  ∑ dy, M qy dy * a1 dz dy qx

/-- Third interpolation pass (hexahedron_H1.inl:182-193): contract the z-axis
of a second-pass cache slot against a 1D table M:
out(qz, qy, qx) = sum_dz M(qz, dz) * A2(·, dz, qy, qx). -/
def interpP3 (M : BasisTable q (p + 1))
    (a2 : Fin (p + 1) → Fin q → Fin q → ℚ)
    (qz qy qx : Fin q) : ℚ :=
  ∑ dz, M qz dz * a2 dz qy qx

/-- The quadrature-point value contribution of one component: the B/B/B
contraction accumulated into get<0>(values_and_derivatives)(qz,qy,qx)(i) by
the three passes of interpolate. -/
def interpVal (B : BasisTable q (p + 1))
    (Xi : Fin (p + 1) → Fin (p + 1) → Fin (p + 1) → ℚ)
    (qz qy qx : Fin q) : ℚ :=
  interpP3 B (fun dz qy qx => interpA2 B (interpA1 B Xi) dz qy qx) qz qy qx

/-- The reference-space gradient contribution of one component: the
(G,B,B)/(B,G,B)/(B,B,G) contractions accumulated into
get<1>(values_and_derivatives)(qz,qy,qx)(i, 0..2) by the three passes of
interpolate, before any Jacobian transformation. -/
def interpGradRef (B G : BasisTable q (p + 1))
    (Xi : Fin (p + 1) → Fin (p + 1) → Fin (p + 1) → ℚ)
    (qz qy qx : Fin q) : Fin 3 → ℚ :=
  ![interpP3 B (fun dz qy qx => interpA2 B (interpA1 G Xi) dz qy qx) qz qy qx,
    interpP3 B (fun dz qy qx => interpA2 G (interpA1 B Xi) dz qy qx) qz qy qx,
    interpP3 G (fun dz qy qx => interpA2 B (interpA1 B Xi) dz qy qx) qz qy qx]

/-- The state threaded through the component loop of interpolate: the
serac::tuple values_and_derivatives of hexahedron_H1.inl:148. -/
def InterpState (c q : ℕ) : Type := QVals c q × QGrads c q

/-- One iteration of the component loop of interpolate
(hexahedron_H1.inl:150-210): the three sum-factorization passes add component
i's value and reference-gradient contributions, then the transformation loop
(lines 195-208) right-multiplies the entire c-by-3 gradient tensor at every
quadrature point - not only row i - by inv(J) there. -/
def interpStep (B G : BasisTable q (p + 1)) (jac : JacField q) (X : Dof c p)
    (st : InterpState c q) (i : Fin c) : InterpState c q :=
  let vals : QVals c q := fun qz qy qx j =>
    st.1 qz qy qx j + (if j = i then interpVal B (X i) qz qy qx else 0)
  let mid : QGrads c q := fun qz qy qx j k =>
    st.2 qz qy qx j k + (if j = i then interpGradRef B G (X i) qz qy qx k else 0)
  let ders : QGrads c q := fun qz qy qx j k =>
    ∑ m, mid qz qy qx j m * inv3 (jInterpAt jac qz qy qx) m k
  (vals, ders)

/-- interpolate (hexahedron_H1.inl:108-213): starting from the
zero-initialized values_and_derivatives tuple, run the component loop. -/
def interpolate (B G : BasisTable q (p + 1)) (jac : JacField q) (X : Dof c p) :
    InterpState c q :=
  (List.finRange c).foldl (interpStep B G jac X)
    (fun _ _ _ _ => 0, fun _ _ _ _ _ => 0)

/-- The volume element dv computed at one quadrature point of integrate
(hexahedron_H1.inl:253): det(J_T) * weights1D[qx] * weights1D[qy] *
weights1D[qz]. -/
def dvAt (w : Fin q → ℚ) (jac : JacField q) (qz qy qx : Fin q) : ℚ :=
  det3 (jIntegAt jac qz qy qx) * w qx * w qy * w qz

/-- The in-place overwrite of sources performed by the prescaling loop of
integrate (hexahedron_H1.inl:254): sources(qz,qy,qx) = sources(qz,qy,qx)*dv. -/
def prescaledSources (w : Fin q → ℚ) (jac : JacField q) (s : QVals c q) :
    QVals c q :=
  fun qz qy qx i => s qz qy qx i * dvAt w jac qz qy qx

/-- The in-place overwrite of fluxes performed by the prescaling loop of
integrate (hexahedron_H1.inl:255):
fluxes(qz,qy,qx) = dot(fluxes(qz,qy,qx), inv(J_T)) * dv. -/
def prescaledFluxes (w : Fin q → ℚ) (jac : JacField q) (f : QGrads c q) :
    QGrads c q :=
  fun qz qy qx i k =>
    (∑ m, f qz qy qx i m * inv3 (jIntegAt jac qz qy qx) m k)
      * dvAt w jac qz qy qx

/-- First integration pass, slot 0 (hexahedron_H1.inl:262-277):
A2(0, dx, qy, qz) = sum_qx B(qx,dx)*sources(qz,qy,qx)[i]
                  + G(qx,dx)*fluxes(qz,qy,qx)[i][0]. -/
def integP1slot0 (B G : BasisTable q (p + 1)) (s : QVals c q) (f : QGrads c q)
    (i : Fin c) (dx : Fin (p + 1)) (qy qz : Fin q) : ℚ :=
  ∑ qx, (B qx dx * s qz qy qx i + G qx dx * f qz qy qx i 0)

/-- First integration pass, slots 1 and 2 (hexahedron_H1.inl:269-270):
A2(1or2, dx, qy, qz) = sum_qx B(qx,dx)*fluxes(qz,qy,qx)[i][1or2]. -/
def integP1slot12 (B : BasisTable q (p + 1)) (f : QGrads c q) (i : Fin c)
    (k : Fin 3) (dx : Fin (p + 1)) (qy qz : Fin q) : ℚ :=
  ∑ qx, B qx dx * f qz qy qx i k

/-- Second integration pass, slot 0 (hexahedron_H1.inl:279-292):
A1(0, dx, dy, qz) = sum_qy B(qy,dy)*A2(0,dx,qy,qz) + G(qy,dy)*A2(1,dx,qy,qz). -/
def integP2slot0 (B G : BasisTable q (p + 1)) (s : QVals c q) (f : QGrads c q)
    (i : Fin c) (dx dy : Fin (p + 1)) (qz : Fin q) : ℚ :=
  ∑ qy, (B qy dy * integP1slot0 B G s f i dx qy qz
        + G qy dy * integP1slot12 B f i 1 dx qy qz)

/-- Second integration pass, slot 1 (hexahedron_H1.inl:286):
A1(1, dx, dy, qz) = sum_qy B(qy,dy)*A2(2,dx,qy,qz). -/
def integP2slot1 (B : BasisTable q (p + 1)) (f : QGrads c q) (i : Fin c)
    (dx dy : Fin (p + 1)) (qz : Fin q) : ℚ :=
  ∑ qy, B qy dy * integP1slot12 B f i 2 dx qy qz

/-- Third integration pass (hexahedron_H1.inl:294-305): the per-dof sum added
into element_residual(i,dz,dy,dx), computed from the already prescaled
sources and fluxes. -/
def integContrib (B G : BasisTable q (p + 1)) (s : QVals c q) (f : QGrads c q)
    (i : Fin c) (dz dy dx : Fin (p + 1)) : ℚ :=
  ∑ qz, (B qz dz * integP2slot0 B G s f i dx dy qz
        + G qz dz * integP2slot1 B f i dx dy qz)

/-- integrate (hexahedron_H1.inl:217-309).  The C++ function mutates its
sources and fluxes arguments in place in the prescaling loop (lines 244-258)
and accumulates into element_residual with += (line 302); the embedding
returns the triple of post-call values of (sources, fluxes,
element_residual), with r0 the pre-call contents of element_residual. -/
def integrate (B G : BasisTable q (p + 1)) (w : Fin q → ℚ) (jac : JacField q)
    (s : QVals c q) (f : QGrads c q) (r0 : Dof c p) :
    QVals c q × QGrads c q × Dof c p :=
  let s' := prescaledSources w jac s
  let f' := prescaledFluxes w jac f
  (s', f', fun i dz dy dx => r0 i dz dy dx + integContrib B G s' f' i dz dy dx)

/-! ## Thermal material models (thermal_material.hpp)

SLIC_ERROR_ROOT_IF(cond, msg) raises a fatal error when cond holds; a
constructor that trips it never yields an object.  The embedding models a
constructor as returning none on a fatal error and some of the constructed
object otherwise; the member initializer list runs first, so the stored
fields are exactly the constructor arguments. -/

/-- LinearIsotropicConductor's data members (thermal_material.hpp). -/
structure LinearIsotropicConductor where
  density : ℚ
  specific_heat_capacity : ℚ
  conductivity : ℚ
deriving DecidableEq, Repr

/-- LinearIsotropicConductor's constructor (thermal_material.hpp:28-39):
fatal when conductivity < 0, density < 0 or specific_heat_capacity < 0, in
that order; otherwise the arguments are stored unmodified. -/
def mkLinearIsotropicConductor (input_density input_specific_heat_capacity
    input_conductivity : ℚ) : Option LinearIsotropicConductor :=
  if input_conductivity < 0 then none
  else if input_density < 0 then none
  else if input_specific_heat_capacity < 0 then none
  else some ⟨input_density, input_specific_heat_capacity, input_conductivity⟩

/-- A 2x2 conductivity tensor, the dim = 2 instantiation of
tensor<double, dim, dim>. -/
def Mat2 : Type := Fin 2 → Fin 2 → ℚ

/-- Modelled from the spec: is_symmetric_and_positive_definite (declared in
serac/numerics/functional/tensor.hpp, which is outside the embedded sources)
decides whether a conductivity tensor is symmetric and positive definite;
for a symmetric 2x2 matrix positive definiteness is equivalent, by
Sylvester's criterion, to positivity of the two leading principal minors. -/
def is_symmetric_and_positive_definite (A : Mat2) : Prop :=
  A 0 1 = A 1 0 ∧ 0 < A 0 0 ∧ 0 < A 0 0 * A 1 1 - A 0 1 * A 1 0

instance (A : Mat2) : Decidable (is_symmetric_and_positive_definite A) := by
  unfold is_symmetric_and_positive_definite
  infer_instance

/-- LinearConductor<2>'s data members (thermal_material.hpp). -/
structure LinearConductor where
  density : ℚ
  specific_heat_capacity : ℚ
  conductivity : Mat2

/-- LinearConductor<2>'s constructor (thermal_material.hpp:82-93): fatal when
density < 0, specific_heat_capacity < 0, or the conductivity tensor is not
symmetric positive definite, in that order; otherwise the arguments are
stored unmodified. -/
def mkLinearConductor (input_density input_specific_heat_capacity : ℚ)
    (input_conductivity : Mat2) : Option LinearConductor :=
  if input_density < 0 then none
  else if input_specific_heat_capacity < 0 then none
  else if ¬ is_symmetric_and_positive_definite input_conductivity then none
  else some ⟨input_density, input_specific_heat_capacity, input_conductivity⟩

/-! ## The order-1 basis tables and concrete kernel inputs

GaussLobattoInterpolation and GaussLobattoInterpolationDerivative live in
serac/numerics/functional/polynomials.hpp, outside the embedded sources. -/

/-- Modelled from the spec: the 1D Gauss-Lobatto nodal basis of order p = 1
on the parent interval [0,1] (nodes 0 and 1, spec section 4.2 and the
hexahedron_H1.inl header comment); its Lagrange interpolants are 1-x and x,
so the value table produced by GaussLobattoInterpolation<2> at 1D quadrature
points pts is B(qx, 0) = 1 - pts(qx), B(qx, 1) = pts(qx). -/
def lobattoB1 (pts : Fin q → ℚ) : BasisTable q 2 :=
  fun qx => ![1 - pts qx, pts qx]

/-- Modelled from the spec: the derivative table produced by
GaussLobattoInterpolationDerivative<2>; the order-1 Lagrange interpolants
1-x and x have constant derivatives -1 and 1. -/
def lobattoG1 (_pts : Fin q → ℚ) : BasisTable q 2 :=
  fun _ => ![-1, 1]

/-- The x-coordinates of the Gauss-Lobatto nodes of the order-1 unit
hexahedron: node dx sits at x = dx (0 or 1). -/
def nodes1 : Fin 2 → ℚ := ![0, 1]

/-- An identity Jacobian at every quadrature point. -/
def idJac (q : ℕ) : JacField q := fun r s _ _ _ => if r = s then 1 else 0

/-- Concrete failing input, 1D basis value table: order p = 1 with a single
quadrature point at x = 1/2 (the one-point Gauss-Legendre rule), so
B = [[1/2, 1/2]]. -/
def exB : BasisTable 1 2 := lobattoB1 ![1/2]

/-- Concrete failing input, 1D derivative table: G = [[-1, 1]]. -/
def exG : BasisTable 1 2 := lobattoG1 ![1/2]

/-- Concrete failing input, 1D quadrature weights: the one-point rule has
weight 1. -/
def exW : Fin 1 → ℚ := ![1]

/-- Concrete failing input, Jacobian field: the constant diagonal Jacobian
diag(2, 1, 1) at the single quadrature point. -/
def exJac : JacField 1 := fun r s _ _ _ =>
  (![![2, 0, 0], ![0, 1, 0], ![0, 0, 1]] : Mat3) r s

/-- Concrete failing input, dof tensor with c = 2 components: component 0
carries the nodal interpolant of f(x) = x (value nodes1 dx at node
(dz,dy,dx)); component 1 is zero. -/
def exX : Dof 2 1 := fun i _ _ dx => if i = 0 then nodes1 dx else 0

/-- Concrete failing input, quadrature-point sources: identically zero. -/
def exS : QVals 2 1 := fun _ _ _ _ => 0

/-- Concrete failing input, quadrature-point fluxes: the x-directed unit
flux on component 0 only. -/
def exF : QGrads 2 1 := fun _ _ _ i k => if i = 0 ∧ k = 0 then 1 else 0

/-- The zero element residual (pre-call contents for a fresh element). -/
def zeroDof (c p : ℕ) : Dof c p := fun _ _ _ _ => 0

/-- The ordinary dot product of an element residual with a dof tensor. -/
def dofDot (r u : Dof c p) : ℚ :=
  ∑ i, ∑ dz, ∑ dy, ∑ dx, r i dz dy dx * u i dz dy dx

/-- The right-hand side of the adjoint identity as the spec states it
(spec sections 4.4 and 8): the quadrature-weighted sum over all quadrature
points of det(J_q) * w_qx * w_qy * w_qz * (s_q . value_q + f_q . gradient_q),
where value and gradient are the outputs of interpolate.  This definition
follows the words of the spec and is compared against the integrate
embedding. -/
def adjointRhsSpec (B G : BasisTable q (p + 1)) (w : Fin q → ℚ)
    (jac : JacField q) (s : QVals c q) (f : QGrads c q) (X : Dof c p) : ℚ :=
  ∑ qz, ∑ qy, ∑ qx,
    det3 (jIntegAt jac qz qy qx) * w qx * w qy * w qz *
      ((∑ i, s qz qy qx i * (interpolate B G jac X).1 qz qy qx i)
        + ∑ i, ∑ k, f qz qy qx i k * (interpolate B G jac X).2 qz qy qx i k)

/-- Helpers for stating linearity over dof tensors: a * X + b * Y. -/
def comboDof (a : ℚ) (X : Dof c p) (b : ℚ) (Y : Dof c p) : Dof c p :=
  fun i dz dy dx => a * X i dz dy dx + b * Y i dz dy dx

/-- The zero quadrature-point source tensor. -/
def zeroQVals (c q : ℕ) : QVals c q := fun _ _ _ _ => 0

/-- The zero quadrature-point flux tensor. -/
def zeroQGrads (c q : ℕ) : QGrads c q := fun _ _ _ _ _ => 0

/-- An all-ones quadrature-point source tensor for the concrete instances. -/
def onesQVals (c q : ℕ) : QVals c q := fun _ _ _ _ => 1

/-! ## Claims about the quadrature rule table -/

/-- C2: the claim states that every triangle rule (entries 1..5) and every
tetrahedron rule (entries 1..6) returned by GaussLegendreRule has weights
summing to the reference simplex volume (1/2 resp. 1/6).  Evaluating the
code: every simplex entry of the table sets rule.weights to the empty list,
so the weight sum is 0, not the reference volume - the code contradicts the
spec's stated normalization invariant. -/
theorem c2_simplex_weights_empty_eval :
    (gaussLegendreRule GeomType.triangle 1).weights = []
    ∧ (gaussLegendreRule GeomType.triangle 2).weights = []
    ∧ (gaussLegendreRule GeomType.triangle 3).weights = []
    ∧ (gaussLegendreRule GeomType.triangle 4).weights = []
    ∧ (gaussLegendreRule GeomType.triangle 5).weights = []
    ∧ (gaussLegendreRule GeomType.tetrahedron 1).weights = []
    ∧ (gaussLegendreRule GeomType.tetrahedron 2).weights = []
    ∧ (gaussLegendreRule GeomType.tetrahedron 3).weights = []
    ∧ (gaussLegendreRule GeomType.tetrahedron 4).weights = []
    ∧ (gaussLegendreRule GeomType.tetrahedron 5).weights = []
    ∧ (gaussLegendreRule GeomType.tetrahedron 6).weights = []
    ∧ (gaussLegendreRule GeomType.triangle 1).weights.sum ≠ 1/2
    ∧ (gaussLegendreRule GeomType.tetrahedron 1).weights.sum ≠ 1/6 := by
  refine ⟨rfl, rfl, rfl, rfl, rfl, rfl, rfl, rfl, rfl, rfl, rfl, ?_, ?_⟩
  · show (0 : ℚ) ≠ 1/2
    norm_num
  · show (0 : ℚ) ≠ 1/6
    norm_num

/-- C4 counterexample: the 7-point segment rule's weights, read as the exact
values of the decimal literals in the source table, sum to
0.9999999999999986, not to 1. -/
theorem c4_segment_weight_sum_counterexample :
    (gaussLegendreRule GeomType.segment 7).weights.sum ≠ 1 := by
  show segmentWeights7.sum ≠ 1
  norm_num [segmentWeights7]

/-- C4 (amended): GaussLegendreRule(SEGMENT, n) returns exactly n points and
n weights for n in 1..8 and the default-constructed empty rule for every
other n; the weights sum exactly to 1 for n in 1..6, while the n = 7 and
n = 8 tables sum to 4999999999999993/5000000000000000 and
5000000000000001/5000000000000000 respectively (equal to 1 only to within
2e-15). -/
theorem c4_segment_rule :
    (∀ n : ℕ, 1 ≤ n → n ≤ 8 →
      (gaussLegendreRule GeomType.segment n).points.length = n
      ∧ (gaussLegendreRule GeomType.segment n).weights.length = n)
    ∧ (∀ n : ℕ, 1 ≤ n → n ≤ 6 →
      (gaussLegendreRule GeomType.segment n).weights.sum = 1)
    ∧ (gaussLegendreRule GeomType.segment 7).weights.sum
        = 4999999999999993 / 5000000000000000
    ∧ (gaussLegendreRule GeomType.segment 8).weights.sum
        = 5000000000000001 / 5000000000000000
    ∧ (∀ n : ℕ, n = 0 ∨ 9 ≤ n →
      gaussLegendreRule GeomType.segment n = ⟨[], []⟩) := by
  refine ⟨?_, ?_, ?_, ?_, ?_⟩
  · intro n h1 h8
    interval_cases n <;> exact ⟨by decide, by decide⟩
  · intro n h1 h6
    interval_cases n
    · show segmentWeights1.sum = 1
      norm_num [segmentWeights1]
    · show segmentWeights2.sum = 1
      norm_num [segmentWeights2]
    · show segmentWeights3.sum = 1
      norm_num [segmentWeights3]
    · show segmentWeights4.sum = 1
      norm_num [segmentWeights4]
    · show segmentWeights5.sum = 1
      norm_num [segmentWeights5]
    · show segmentWeights6.sum = 1
      norm_num [segmentWeights6]
  · show segmentWeights7.sum = _
    norm_num [segmentWeights7]
  · show segmentWeights8.sum = _
    norm_num [segmentWeights8]
  · intro n h
    rcases h with h | h
    · subst h; rfl
    · obtain ⟨k, rfl⟩ := Nat.exists_eq_add_of_le h
      rw [Nat.add_comm]
      rfl

/-- C4 witness: the amended theorem applied at n = 3 (in the supported
range) and at n = 9 (outside it). -/
theorem c4_segment_rule_witness :
    (gaussLegendreRule GeomType.segment 3).points.length = 3
    ∧ (gaussLegendreRule GeomType.segment 3).weights.sum = 1
    ∧ gaussLegendreRule GeomType.segment 9 = ⟨[], []⟩ :=
  ⟨(c4_segment_rule.1 3 (by decide) (by decide)).1,
   c4_segment_rule.2.1 3 (by decide) (by decide),
   c4_segment_rule.2.2.2.2 9 (Or.inr (by decide))⟩

/-- C6 counterexample: the polynomial-order lookup table for the triangle
has exactly 5 entries (indices 0..4), so the subscript performed at
polynomial order p = 5 reads index 5, out of bounds - not an in-bounds
lookup as the claim states (and likewise for the tetrahedron). -/
theorem c6_order_lut_out_of_bounds_counterexample :
    (polynomial_order_LUT GeomType.triangle).length = 5
    ∧ lutLookup GeomType.triangle 5 = none
    ∧ (polynomial_order_LUT GeomType.tetrahedron).length = 5
    ∧ lutLookup GeomType.tetrahedron 5 = none := by
  exact ⟨rfl, rfl, rfl, rfl⟩

/-- C6 (amended): for the triangle and the tetrahedron, the order-based
overload performs an in-bounds lookup for polynomial orders p in 1..4 only
(the table has indices 0..4, and the claimed upper bound 5 reads past the
end); for p in 1..4 the lookup yields point count p + 1 and the returned
tabulated rule has a non-empty point set. -/
theorem c6_order_lut_lookup :
    ∀ p : ℕ, 1 ≤ p → p ≤ 4 →
      (lutLookup GeomType.triangle p = some (p + 1)
        ∧ gaussLegendreRuleByOrder GeomType.triangle p
            = some (gaussLegendreRule GeomType.triangle (p + 1))
        ∧ (gaussLegendreRule GeomType.triangle (p + 1)).points ≠ [])
      ∧ (lutLookup GeomType.tetrahedron p = some (p + 1)
        ∧ gaussLegendreRuleByOrder GeomType.tetrahedron p
            = some (gaussLegendreRule GeomType.tetrahedron (p + 1))
        ∧ (gaussLegendreRule GeomType.tetrahedron (p + 1)).points ≠ []):= by
  intro p h1 h4
  interval_cases p <;> exact ⟨⟨rfl, rfl, by decide⟩, ⟨rfl, rfl, by decide⟩⟩

/-- C6 witness: the amended theorem applied at p = 2. -/
theorem c6_order_lut_lookup_witness :
    lutLookup GeomType.triangle 2 = some 3
    ∧ (gaussLegendreRule GeomType.tetrahedron 3).points ≠ [] :=
  ⟨(c6_order_lut_lookup 2 (by decide) (by decide)).1.1,
   (c6_order_lut_lookup 2 (by decide) (by decide)).2.2.2⟩

/-! ## Claims about the thermal material constructors -/

/-- A sample symmetric positive definite 2x2 conductivity tensor. -/
def exGoodK : Mat2 := ![![2, 1], ![1, 2]]

/-- A sample conductivity tensor that is not symmetric positive definite. -/
def exBadK : Mat2 := ![![1, 2], ![0, 1]]

/-- C7: constructing LinearIsotropicConductor with a negative density,
negative specific heat capacity or negative conductivity - or
LinearConductor with a negative density, negative specific heat capacity or
a conductivity tensor that is not symmetric positive definite - is fatal at
construction time, and every accepted construction stores the supplied
parameter values unmodified (never clamped). -/
theorem c7_conductor_ctor_validation :
    (∀ d s k : ℚ, (d < 0 ∨ s < 0 ∨ k < 0) →
      mkLinearIsotropicConductor d s k = none)
    ∧ (∀ (d s k : ℚ) (m : LinearIsotropicConductor),
      mkLinearIsotropicConductor d s k = some m →
        m.density = d ∧ m.specific_heat_capacity = s ∧ m.conductivity = k)
    ∧ (∀ (d s : ℚ) (K : Mat2),
      (d < 0 ∨ s < 0 ∨ ¬ is_symmetric_and_positive_definite K) →
        mkLinearConductor d s K = none)
    ∧ (∀ (d s : ℚ) (K : Mat2) (m : LinearConductor),
      mkLinearConductor d s K = some m →
        m.density = d ∧ m.specific_heat_capacity = s ∧ m.conductivity = K) := by
  refine ⟨?_, ?_, ?_, ?_⟩
  · intro d s k h
    unfold mkLinearIsotropicConductor
    split_ifs with h1 h2 h3
    · rfl
    · rfl
    · rfl
    · rcases h with h | h | h
      · exact absurd h h2
      · exact absurd h h3
      · exact absurd h h1
  · intro d s k m h
    unfold mkLinearIsotropicConductor at h
    split_ifs at h
    cases h
    exact ⟨rfl, rfl, rfl⟩
  · intro d s K h
    unfold mkLinearConductor
    by_cases h1 : d < 0
    · rw [if_pos h1]
    · rw [if_neg h1]
      by_cases h2 : s < 0
      · rw [if_pos h2]
      · rw [if_neg h2]
        have h3 : ¬ is_symmetric_and_positive_definite K := by
          rcases h with h | h | h
          · exact absurd h h1
          · exact absurd h h2
          · exact h
        rw [if_pos h3]
  · intro d s K m h
    unfold mkLinearConductor at h
    split_ifs at h
    cases h
    exact ⟨rfl, rfl, rfl⟩

/-- C7 witness: the validation theorem applied at concrete inputs - a
negative density is rejected by both constructors, a non-SPD conductivity is
rejected by LinearConductor, and accepted constructions store their
arguments. -/
theorem c7_conductor_ctor_validation_witness :
    mkLinearIsotropicConductor (-1) 1 1 = none
    ∧ mkLinearConductor (-1) 1 exGoodK = none
    ∧ mkLinearConductor 1 1 exBadK = none
    ∧ ((⟨2, 3, 4⟩ : LinearIsotropicConductor).density = 2
        ∧ (⟨2, 3, 4⟩ : LinearIsotropicConductor).specific_heat_capacity = 3
        ∧ (⟨2, 3, 4⟩ : LinearIsotropicConductor).conductivity = 4)
    ∧ ((⟨2, 3, exGoodK⟩ : LinearConductor).density = 2
        ∧ (⟨2, 3, exGoodK⟩ : LinearConductor).specific_heat_capacity = 3
        ∧ (⟨2, 3, exGoodK⟩ : LinearConductor).conductivity = exGoodK) :=
  ⟨c7_conductor_ctor_validation.1 (-1) 1 1 (Or.inl (by norm_num)),
   c7_conductor_ctor_validation.2.2.1 (-1) 1 exGoodK (Or.inl (by norm_num)),
   c7_conductor_ctor_validation.2.2.1 1 1 exBadK (Or.inr (Or.inr (by
     intro h
     have h01 : exBadK 0 1 = exBadK 1 0 := h.1
     norm_num [exBadK] at h01))),
   c7_conductor_ctor_validation.2.1 2 3 4 ⟨2, 3, 4⟩ (by
     unfold mkLinearIsotropicConductor
     norm_num),
   c7_conductor_ctor_validation.2.2.2 2 3 exGoodK ⟨2, 3, exGoodK⟩ (by
     unfold mkLinearConductor
     rw [if_neg (by norm_num), if_neg (by norm_num), if_neg (by
       simp only [not_not]
       refine ⟨by norm_num [exGoodK], by norm_num [exGoodK], by norm_num [exGoodK, is_symmetric_and_positive_definite]⟩)])⟩

/-! ## Claims about the sum-factorized kernel pair -/

/-- Sums over Fin (1 + 1) in the syntactic shape produced by instantiating
the kernel at p = 1, for rewriting concrete instances. -/
theorem finSumTwo (f : Fin (1 + 1) → ℚ) : ∑ x, f x = f 0 + f 1 :=
  Fin.sum_univ_two f

/-- C8: integrate accumulates additively into element_residual - the
post-call residual is the pre-call residual plus the contribution computed
from (sources, fluxes), so repeated calls sum their contributions, and a
call with zero sources and zero fluxes leaves the residual unchanged. -/
theorem c8_integrate_accumulates :
    ∀ {p q c : ℕ} (B G : BasisTable q (p + 1)) (w : Fin q → ℚ)
      (jac : JacField q) (s : QVals c q) (f : QGrads c q) (r0 : Dof c p)
      (i : Fin c) (dz dy dx : Fin (p + 1)),
      (integrate B G w jac s f r0).2.2 i dz dy dx
        = r0 i dz dy dx + (integrate B G w jac s f (zeroDof c p)).2.2 i dz dy dx
      ∧ (integrate B G w jac (zeroQVals c q) (zeroQGrads c q) r0).2.2 i dz dy dx
        = r0 i dz dy dx := by
  intro p q c B G w jac s f r0 i dz dy dx
  constructor
  · simp [integrate, zeroDof]
  · simp [integrate, integContrib, integP2slot0, integP2slot1, integP1slot0,
      integP1slot12, prescaledSources, prescaledFluxes, zeroQVals, zeroQGrads]

/-- C9: integrate overwrites its sources and fluxes arguments in place
before contracting - after the call each sources(qz,qy,qx)[i] equals its
pre-call value scaled by det(J_q)*w_qx*w_qy*w_qz, and each
fluxes(qz,qy,qx)[i] equals its pre-call value right-multiplied by the
inverse of the per-point Jacobian matrix J_T (read row-major from the
jacobians argument) and scaled by the same factor; in particular the
caller's quadrature-point data is not preserved across the call, as the
concrete instance in the second conjunct shows. -/
theorem c9_integrate_mutates_qpoint_data :
    (∀ {p q c : ℕ} (B G : BasisTable q (p + 1)) (w : Fin q → ℚ)
      (jac : JacField q) (s : QVals c q) (f : QGrads c q) (r0 : Dof c p)
      (qz qy qx : Fin q) (i : Fin c) (k : Fin 3),
      (integrate B G w jac s f r0).1 qz qy qx i
        = s qz qy qx i * (det3 (jIntegAt jac qz qy qx) * w qx * w qy * w qz)
      ∧ (integrate B G w jac s f r0).2.1 qz qy qx i k
        = (∑ m, f qz qy qx i m * inv3 (jIntegAt jac qz qy qx) m k)
            * (det3 (jIntegAt jac qz qy qx) * w qx * w qy * w qz))
    ∧ (integrate exB exG exW exJac (onesQVals 2 1) exF (zeroDof 2 1)).1 0 0 0 0
        ≠ onesQVals 2 1 0 0 0 0 := by
  constructor
  · intro p q c B G w jac s f r0 qz qy qx i k
    exact ⟨rfl, rfl⟩
  · norm_num [integrate, prescaledSources, dvAt, det3, jIntegAt, exJac, exW,
      onesQVals, Matrix.vecHead, Matrix.vecTail]

/-- C1: the claim states that integrate is the exact transpose of
interpolate with respect to the quadrature-weighted inner product, for every
component count c.  Evaluating the code at a concrete input with c = 2
components (order p = 1, one quadrature point, basis tables of the order-1
Gauss-Lobatto basis at x = 1/2, Jacobian diag(2,1,1), dofs the nodal
interpolant of f(x) = x in component 0, zero sources, unit x-flux in
component 0): the residual-dof pairing is 1 while the quadrature-side
pairing is 1/2, so the adjoint identity fails - the transformation loop of
interpolate sits inside the component loop (hexahedron_H1.inl:150-210) and
right-multiplies component 0's gradient by the inverse Jacobian twice,
while integrate pulls fluxes back exactly once. -/
theorem c1_adjoint_identity_eval :
    dofDot ((integrate exB exG exW exJac exS exF (zeroDof 2 1)).2.2) exX = 1
    ∧ adjointRhsSpec exB exG exW exJac exS exF exX = 1/2 := by
  constructor
  · norm_num +decide [dofDot, integrate, integContrib, integP2slot0,
      integP2slot1, integP1slot0, integP1slot12, prescaledSources,
      prescaledFluxes, dvAt, det3, inv3, jIntegAt, exB, exG, exW, exJac, exX,
      exS, exF, zeroDof, lobattoB1, lobattoG1, nodes1, Fin.sum_univ_one,
      finSumTwo, Fin.sum_univ_two, Fin.sum_univ_three, Matrix.vecHead,
      Matrix.vecTail]
  · have hfr : List.finRange 2 = [0, 1] := rfl
    norm_num +decide [adjointRhsSpec, interpolate, hfr, interpStep, interpVal,
      interpGradRef, interpP3, interpA2, interpA1, inv3, det3, jIntegAt,
      jInterpAt, exB, exG, exW, exJac, exX, exS, exF, lobattoB1, lobattoG1,
      nodes1, Fin.sum_univ_one, finSumTwo, Fin.sum_univ_two,
      Fin.sum_univ_three, Matrix.vecHead, Matrix.vecTail]

/-- C3: the claim states that the gradient returned by interpolate equals
the reference-space gradient right-multiplied exactly once by the inverse
Jacobian, for every component count c >= 1.  Evaluating the code at the
concrete c = 2 input of the C1 analysis: component 0's returned x-gradient
is 1/4, while its reference-space gradient right-multiplied once by the
inverse Jacobian has x-entry 1/2 - the transformation loop sits inside the
component loop and is applied to component 0 at both component iterations. -/
theorem c3_gradient_double_transform_eval :
    (interpolate exB exG exJac exX).2 0 0 0 0 0 = 1/4
    ∧ (∑ m, interpGradRef exB exG (exX 0) 0 0 0 m
        * inv3 (jInterpAt exJac 0 0 0) m 0) = 1/2 := by
  constructor
  · have hfr : List.finRange 2 = [0, 1] := rfl
    norm_num +decide [interpolate, hfr, interpStep, interpVal, interpGradRef,
      interpP3, interpA2, interpA1, inv3, det3, jInterpAt, exB, exG, exJac,
      exX, lobattoB1, lobattoG1, nodes1, Fin.sum_univ_one, finSumTwo,
      Fin.sum_univ_two, Fin.sum_univ_three, Matrix.vecHead, Matrix.vecTail]
  · norm_num +decide [interpGradRef, interpP3, interpA2, interpA1, inv3, det3,
      jInterpAt, exB, exG, exJac, exX, lobattoB1, lobattoG1, nodes1,
      Fin.sum_univ_one, finSumTwo, Fin.sum_univ_two, Fin.sum_univ_three,
      Matrix.vecHead, Matrix.vecTail]

/-- The element dofs of the nodal interpolant of f(x) = x on the unit
hexahedron at order p = 1: every node (dz, dy, dx) carries the x-coordinate
of the node, nodes1 dx. -/
def linearXDof : Dof 1 1 := fun _ _ _ dx => nodes1 dx

/-- C5: with p = 1, c = 1, q = 2, identity Jacobians, and dofs set to the
x-coordinate of each Gauss-Lobatto node of the unit hexahedron, interpolate
returns at every quadrature point the value pts qx (the x-coordinate of the
quadrature point) and the gradient (1, 0, 0); stated for an arbitrary 1D
quadrature point vector pts, which covers the two-point Gauss-Legendre
nodes. -/
theorem c5_unit_hex_linear_field (pts : Fin 2 → ℚ) (qz qy qx : Fin 2) :
    (interpolate (lobattoB1 pts) (lobattoG1 pts) (idJac 2) linearXDof).1 qz qy qx 0 = pts qx
    ∧ (interpolate (lobattoB1 pts) (lobattoG1 pts) (idJac 2) linearXDof).2 qz qy qx 0 0 = 1
    ∧ (interpolate (lobattoB1 pts) (lobattoG1 pts) (idJac 2) linearXDof).2 qz qy qx 0 1 = 0
    ∧ (interpolate (lobattoB1 pts) (lobattoG1 pts) (idJac 2) linearXDof).2 qz qy qx 0 2 = 0 := by
  have hfr : List.finRange 1 = [0] := rfl
  refine ⟨?_, ?_, ?_, ?_⟩ <;>
    (simp +decide [interpolate, hfr, interpStep, interpVal, interpGradRef,
      interpP3, interpA2, interpA1, inv3, det3, jInterpAt, idJac, linearXDof,
      lobattoB1, lobattoG1, nodes1, Fin.sum_univ_one, finSumTwo,
      Fin.sum_univ_two, Fin.sum_univ_three, Matrix.vecHead, Matrix.vecTail] <;>
     ring)

/-- The pointwise linear combination a * s + b * t of two interpolate
states, used to state linearity of the kernel in its dof argument. -/
def comboState (a : ℚ) (s : InterpState c q) (b : ℚ) (t : InterpState c q) :
    InterpState c q :=
  (fun qz qy qx j => a * s.1 qz qy qx j + b * t.1 qz qy qx j,
   fun qz qy qx j k => a * s.2 qz qy qx j k + b * t.2 qz qy qx j k)

/-- The first interpolation pass is linear in the dof slab it contracts. -/
theorem interpA1_linear (M : BasisTable q (p + 1)) (a b : ℚ)
    (Xi Yi : Fin (p + 1) → Fin (p + 1) → Fin (p + 1) → ℚ)
    (dz dy : Fin (p + 1)) (qx : Fin q) :
    interpA1 M (fun z y x => a * Xi z y x + b * Yi z y x) dz dy qx
      = a * interpA1 M Xi dz dy qx + b * interpA1 M Yi dz dy qx := by
  unfold interpA1
  rw [Finset.mul_sum, Finset.mul_sum, ← Finset.sum_add_distrib]
  exact Finset.sum_congr rfl fun dx _ => by ring

/-- The second interpolation pass maps a pointwise linear combination of
cache slabs to the linear combination of its outputs. -/
theorem interpA2_linear (M : BasisTable q (p + 1)) (a b : ℚ)
    (F f g : Fin (p + 1) → Fin (p + 1) → Fin q → ℚ)
    (h : ∀ dz dy qx, F dz dy qx = a * f dz dy qx + b * g dz dy qx)
    (dz : Fin (p + 1)) (qy qx : Fin q) :
    interpA2 M F dz qy qx
      = a * interpA2 M f dz qy qx + b * interpA2 M g dz qy qx := by
  unfold interpA2
  rw [Finset.mul_sum, Finset.mul_sum, ← Finset.sum_add_distrib]
  exact Finset.sum_congr rfl fun dy _ => by rw [h]; ring

/-- The third interpolation pass maps a pointwise linear combination of
cache slabs to the linear combination of its outputs. -/
theorem interpP3_linear (M : BasisTable q (p + 1)) (a b : ℚ)
    (F f g : Fin (p + 1) → Fin q → Fin q → ℚ)
    (h : ∀ dz qy qx, F dz qy qx = a * f dz qy qx + b * g dz qy qx)
    (qz qy qx : Fin q) :
    interpP3 M F qz qy qx
      = a * interpP3 M f qz qy qx + b * interpP3 M g qz qy qx := by
  unfold interpP3
  rw [Finset.mul_sum, Finset.mul_sum, ← Finset.sum_add_distrib]
  exact Finset.sum_congr rfl fun dz _ => by rw [h]; ring

/-- The per-component value contribution of interpolate is linear in the
component's dofs. -/
theorem interpVal_linear (B : BasisTable q (p + 1)) (a b : ℚ)
    (Xi Yi : Fin (p + 1) → Fin (p + 1) → Fin (p + 1) → ℚ) (qz qy qx : Fin q) :
    interpVal B (fun z y x => a * Xi z y x + b * Yi z y x) qz qy qx
      = a * interpVal B Xi qz qy qx + b * interpVal B Yi qz qy qx := by
  unfold interpVal
  exact interpP3_linear B a b _ _ _
    (fun dz qy qx => interpA2_linear B a b _ _ _
      (fun dz dy qx => interpA1_linear B a b Xi Yi dz dy qx) dz qy qx) qz qy qx

/-- The per-component reference-gradient contribution of interpolate is
linear in the component's dofs. -/
theorem interpGradRef_linear (B G : BasisTable q (p + 1)) (a b : ℚ)
    (Xi Yi : Fin (p + 1) → Fin (p + 1) → Fin (p + 1) → ℚ) (qz qy qx : Fin q)
    (k : Fin 3) :
    interpGradRef B G (fun z y x => a * Xi z y x + b * Yi z y x) qz qy qx k
      = a * interpGradRef B G Xi qz qy qx k
        + b * interpGradRef B G Yi qz qy qx k := by
  fin_cases k
  · simpa only [interpGradRef, Matrix.cons_val_zero] using
      interpP3_linear B a b _ _ _
        (fun dz qy qx => interpA2_linear B a b _ _ _
          (fun dz dy qx => interpA1_linear G a b Xi Yi dz dy qx) dz qy qx) qz qy qx
  · simpa only [interpGradRef, Matrix.cons_val_one, Matrix.head_cons] using
      interpP3_linear B a b _ _ _
        (fun dz qy qx => interpA2_linear G a b _ _ _
          (fun dz dy qx => interpA1_linear B a b Xi Yi dz dy qx) dz qy qx) qz qy qx
  · simpa only [interpGradRef, Matrix.cons_val_two, Matrix.tail_cons,
      Matrix.head_cons] using
      interpP3_linear G a b _ _ _
        (fun dz qy qx => interpA2_linear B a b _ _ _
          (fun dz dy qx => interpA1_linear B a b Xi Yi dz dy qx) dz qy qx) qz qy qx

/-- One iteration of the component loop of interpolate commutes with linear
combination of (dofs, state) pairs: the pass contributions are linear in the
dofs and the gradient transformation is linear in the state. -/
theorem interpStep_linear (B G : BasisTable q (p + 1)) (jac : JacField q)
    (a b : ℚ) (X Y : Dof c p) (s t : InterpState c q) (i : Fin c) :
    interpStep B G jac (comboDof a X b Y) (comboState a s b t) i
      = comboState a (interpStep B G jac X s i) b (interpStep B G jac Y t i) := by
  unfold interpStep comboState comboDof
  refine Prod.ext ?_ ?_
  · funext qz qy qx j
    by_cases hj : j = i
    · simp only [hj, eq_self_iff_true, if_true]
      rw [interpVal_linear]
      ring
    · simp only [if_neg hj]
      ring
  · funext qz qy qx j k
    simp only
    rw [Finset.mul_sum, Finset.mul_sum, ← Finset.sum_add_distrib]
    refine Finset.sum_congr rfl fun m _ => ?_
    by_cases hj : j = i
    · simp only [hj, eq_self_iff_true, if_true]
      rw [interpGradRef_linear]
      ring
    · simp only [if_neg hj]
      ring

/-- The component loop of interpolate, run over any component list from a
linear combination of start states, yields the linear combination of the
individual runs. -/
theorem interpFold_linear (B G : BasisTable q (p + 1)) (jac : JacField q)
    (a b : ℚ) (X Y : Dof c p) :
    ∀ (l : List (Fin c)) (s t : InterpState c q),
      l.foldl (interpStep B G jac (comboDof a X b Y)) (comboState a s b t)
        = comboState a (l.foldl (interpStep B G jac X) s)
            b (l.foldl (interpStep B G jac Y) t) := by
  intro l
  induction l with
  | nil => intro s t; rfl
  | cons hd tl ih =>
    intro s t
    rw [List.foldl_cons, List.foldl_cons, List.foldl_cons,
      interpStep_linear, ih]

/-- interpolate maps a linear combination of dof tensors to the linear
combination of its outputs, as a whole state. -/
theorem interpolate_combo (B G : BasisTable q (p + 1)) (jac : JacField q)
    (a b : ℚ) (X Y : Dof c p) :
    interpolate B G jac (comboDof a X b Y)
      = comboState a (interpolate B G jac X) b (interpolate B G jac Y) := by
  have hinit : ((fun _ _ _ _ => (0:ℚ), fun _ _ _ _ _ => (0:ℚ)) : InterpState c q)
      = comboState a (fun _ _ _ _ => 0, fun _ _ _ _ _ => 0)
          b (fun _ _ _ _ => 0, fun _ _ _ _ _ => 0) := by
    refine Prod.ext ?_ ?_ <;> funext <;> simp [comboState]
  unfold interpolate
  conv_lhs => rw [hinit]
  rw [interpFold_linear]

/-- C10: for fixed basis tables and Jacobians, interpolate is linear in its
dof argument - interpolate(a*X + b*Y) equals a*interpolate(X) +
b*interpolate(Y) componentwise in both the returned values and the returned
gradients at every quadrature point, and interpolate of the zero dof tensor
is identically zero. -/
theorem c10_interpolate_linear :
    ∀ {p q c : ℕ} (B G : BasisTable q (p + 1)) (jac : JacField q) (a b : ℚ)
      (X Y : Dof c p) (qz qy qx : Fin q) (j : Fin c) (k : Fin 3),
      ((interpolate B G jac (comboDof a X b Y)).1 qz qy qx j
        = a * (interpolate B G jac X).1 qz qy qx j
          + b * (interpolate B G jac Y).1 qz qy qx j)
      ∧ ((interpolate B G jac (comboDof a X b Y)).2 qz qy qx j k
        = a * (interpolate B G jac X).2 qz qy qx j k
          + b * (interpolate B G jac Y).2 qz qy qx j k)
      ∧ (interpolate B G jac (zeroDof c p)).1 qz qy qx j = 0
      ∧ (interpolate B G jac (zeroDof c p)).2 qz qy qx j k = 0 := by
  intro p q c B G jac a b X Y qz qy qx j k
  have hzd : zeroDof c p = comboDof 0 (zeroDof c p) 0 (zeroDof c p) := by
    funext i z y x
    simp [comboDof, zeroDof]
  have h0 : interpolate B G jac (zeroDof c p)
      = comboState 0 (interpolate B G jac (zeroDof c p))
          0 (interpolate B G jac (zeroDof c p)) := by
    conv_lhs => rw [hzd]
    exact interpolate_combo B G jac 0 0 (zeroDof c p) (zeroDof c p)
  refine ⟨?_, ?_, ?_, ?_⟩
  · rw [interpolate_combo]; rfl
  · rw [interpolate_combo]; rfl
  · rw [h0]; simp [comboState]
  · rw [h0]; simp [comboState]
/-- The inverse of a transposed 3x3 matrix is the transposed inverse,
directly from the cofactor formula. -/
theorem inv3_transpose (A : Mat3) (r c : Fin 3) :
    inv3 (fun i j => A j i) r c = inv3 A c r := by
  have hdet : det3 (fun i j => A j i) = det3 A := by
    unfold det3
    ring
  unfold inv3
  rw [hdet]
  fin_cases r <;> fin_cases c <;>
    simp [Matrix.cons_val_zero, Matrix.cons_val_one, Matrix.head_cons,
      Matrix.cons_val_two, Matrix.tail_cons] <;> ring

/-- Closed form of the three chained interpolation passes: a single triple
contraction of the dof slab against one 1D table per axis. -/
theorem tripleContract_closed (M1 M2 M3 : BasisTable q (p + 1))
    (Xi : Fin (p + 1) → Fin (p + 1) → Fin (p + 1) → ℚ) (qz qy qx : Fin q) :
    interpP3 M1 (fun dz qy qx => interpA2 M2 (interpA1 M3 Xi) dz qy qx) qz qy qx
      = ∑ dz, ∑ dy, ∑ dx,
          M1 qz dz * M2 qy dy * M3 qx dx * Xi dz dy dx := by
  unfold interpP3 interpA2 interpA1
  refine Finset.sum_congr rfl fun dz _ => ?_
  simp only [Finset.mul_sum]
  refine Finset.sum_congr rfl fun dy _ => Finset.sum_congr rfl fun dx _ => by ring

/-- Closed form of the value contribution of interpolate. -/
theorem interpVal_closed (B : BasisTable q (p + 1))
    (Xi : Fin (p + 1) → Fin (p + 1) → Fin (p + 1) → ℚ) (qz qy qx : Fin q) :
    interpVal B Xi qz qy qx
      = ∑ dz, ∑ dy, ∑ dx, B qz dz * B qy dy * B qx dx * Xi dz dy dx :=
  tripleContract_closed B B B Xi qz qy qx

/-- Closed form of the first reference-gradient component of interpolate. -/
theorem interpGradRef0_closed (B G : BasisTable q (p + 1))
    (Xi : Fin (p + 1) → Fin (p + 1) → Fin (p + 1) → ℚ) (qz qy qx : Fin q) :
    interpGradRef B G Xi qz qy qx 0
      = ∑ dz, ∑ dy, ∑ dx, B qz dz * B qy dy * G qx dx * Xi dz dy dx := by
  show interpP3 B (fun dz qy qx => interpA2 B (interpA1 G Xi) dz qy qx) qz qy qx = _
  exact tripleContract_closed B B G Xi qz qy qx

/-- Closed form of the second reference-gradient component of interpolate. -/
theorem interpGradRef1_closed (B G : BasisTable q (p + 1))
    (Xi : Fin (p + 1) → Fin (p + 1) → Fin (p + 1) → ℚ) (qz qy qx : Fin q) :
    interpGradRef B G Xi qz qy qx 1
      = ∑ dz, ∑ dy, ∑ dx, B qz dz * G qy dy * B qx dx * Xi dz dy dx := by
  show interpP3 B (fun dz qy qx => interpA2 G (interpA1 B Xi) dz qy qx) qz qy qx = _
  exact tripleContract_closed B G B Xi qz qy qx

/-- Closed form of the third reference-gradient component of interpolate. -/
theorem interpGradRef2_closed (B G : BasisTable q (p + 1))
    (Xi : Fin (p + 1) → Fin (p + 1) → Fin (p + 1) → ℚ) (qz qy qx : Fin q) :
    interpGradRef B G Xi qz qy qx 2
      = ∑ dz, ∑ dy, ∑ dx, G qz dz * B qy dy * B qx dx * Xi dz dy dx := by
  show interpP3 G (fun dz qy qx => interpA2 B (interpA1 B Xi) dz qy qx) qz qy qx = _
  exact tripleContract_closed G B B Xi qz qy qx

/-- Closed form of the three chained integration passes: integrate
contracts the prescaled sources against B/B/B and the prescaled fluxes
against the differentiated-axis tables, as a single triple quadrature sum. -/
theorem integContrib_closed (B G : BasisTable q (p + 1)) (s : QVals c q)
    (f : QGrads c q) (i : Fin c) (dz dy dx : Fin (p + 1)) :
    integContrib B G s f i dz dy dx
      = ∑ qz, ∑ qy, ∑ qx,
          (B qz dz * B qy dy * B qx dx * s qz qy qx i
           + B qz dz * B qy dy * G qx dx * f qz qy qx i 0
           + B qz dz * G qy dy * B qx dx * f qz qy qx i 1
           + G qz dz * B qy dy * B qx dx * f qz qy qx i 2) := by
  unfold integContrib integP2slot0 integP2slot1 integP1slot0 integP1slot12
  refine Finset.sum_congr rfl fun qz _ => ?_
  simp only [Finset.mul_sum, mul_add]
  rw [← Finset.sum_add_distrib]
  refine Finset.sum_congr rfl fun qy _ => ?_
  rw [← Finset.sum_add_distrib, ← Finset.sum_add_distrib]
  refine Finset.sum_congr rfl fun qx _ => by ring

/-- Interchange of a triple dof sum with a triple quadrature sum. -/
theorem sum_swap33 {n m : ℕ} (g : Fin n → Fin n → Fin n → Fin m → Fin m → Fin m → ℚ) :
    (∑ a, ∑ b, ∑ c, ∑ x, ∑ y, ∑ z, g a b c x y z)
      = ∑ x, ∑ y, ∑ z, ∑ a, ∑ b, ∑ c, g a b c x y z := by
  have bundle : ∀ {k : ℕ} (h : Fin k → Fin k → Fin k → ℚ),
      (∑ a, ∑ b, ∑ c, h a b c) = ∑ t : Fin k × Fin k × Fin k, h t.1 t.2.1 t.2.2 := by
    intro k h
    rw [Fintype.sum_prod_type]
    exact Finset.sum_congr rfl fun a _ => by rw [Fintype.sum_prod_type]
  calc (∑ a, ∑ b, ∑ c, ∑ x, ∑ y, ∑ z, g a b c x y z)
      = ∑ a, ∑ b, ∑ c, ∑ u : Fin m × Fin m × Fin m, g a b c u.1 u.2.1 u.2.2 := by
        refine Finset.sum_congr rfl fun a _ => Finset.sum_congr rfl fun b _ =>
          Finset.sum_congr rfl fun c _ => bundle _
    _ = ∑ t : Fin n × Fin n × Fin n, ∑ u : Fin m × Fin m × Fin m,
          g t.1 t.2.1 t.2.2 u.1 u.2.1 u.2.2 := bundle _
    _ = ∑ u : Fin m × Fin m × Fin m, ∑ t : Fin n × Fin n × Fin n,
          g t.1 t.2.1 t.2.2 u.1 u.2.1 u.2.2 := Finset.sum_comm
    _ = ∑ u : Fin m × Fin m × Fin m, ∑ a, ∑ b, ∑ c, g a b c u.1 u.2.1 u.2.2 := by
        refine Finset.sum_congr rfl fun u _ =>
          (bundle (fun a b c => g a b c u.1 u.2.1 u.2.2)).symm
    _ = ∑ x, ∑ y, ∑ z, ∑ a, ∑ b, ∑ c, g a b c x y z :=
        (bundle (fun x y z => ∑ a, ∑ b, ∑ c, g a b c x y z)).symm

/-- With a single field component the interpolate loop degenerates to one
iteration and its returned value is the B/B/B contraction. -/
theorem interpolate_c1_val (B G : BasisTable q (p + 1)) (jac : JacField q)
    (X : Dof 1 p) (qz qy qx : Fin q) :
    (interpolate B G jac X).1 qz qy qx 0 = interpVal B (X 0) qz qy qx := by
  have hfr : List.finRange 1 = [0] := rfl
  simp [interpolate, hfr, interpStep]

/-- With a single field component the interpolate loop transforms the
reference-space gradient by the inverse Jacobian exactly once. -/
theorem interpolate_c1_grad (B G : BasisTable q (p + 1)) (jac : JacField q)
    (X : Dof 1 p) (qz qy qx : Fin q) (k : Fin 3) :
    (interpolate B G jac X).2 qz qy qx 0 k
      = ∑ m, interpGradRef B G (X 0) qz qy qx m
          * inv3 (jInterpAt jac qz qy qx) m k := by
  have hfr : List.finRange 1 = [0] := rfl
  simp [interpolate, hfr, interpStep]

/-- The matrix J built by interpolate is the transpose of the matrix J_T
built by integrate, so their inverses are mutual transposes. -/
theorem inv3_jInterpAt (jac : JacField q) (qz qy qx : Fin q) (m k : Fin 3) :
    inv3 (jInterpAt jac qz qy qx) m k = inv3 (jIntegAt jac qz qy qx) k m :=
  inv3_transpose (jIntegAt jac qz qy qx) m k

/-- Supporting result for the adjoint analysis: with a single field
component (c = 1) integrate is the exact transpose of interpolate with
respect to the quadrature-weighted inner product, for arbitrary basis
tables, weights and Jacobians - the discrete integration-by-parts identity
of the spec holds; the C1 failure is therefore precisely the repeated
gradient transformation applied to earlier components when c is at least 2. -/
theorem adjoint_identity_c1 {p q : ℕ} (B G : BasisTable q (p + 1))
    (w : Fin q → ℚ) (jac : JacField q) (s : QVals 1 q) (f : QGrads 1 q)
    (u : Dof 1 p) :
    dofDot ((integrate B G w jac s f (zeroDof 1 p)).2.2) u
      = adjointRhsSpec B G w jac s f u := by
  unfold dofDot adjointRhsSpec
  simp only [Fin.sum_univ_one, integrate, zeroDof, zero_add,
    interpolate_c1_val, interpolate_c1_grad, integContrib_closed,
    Finset.sum_mul]
  rw [sum_swap33]
  refine Finset.sum_congr rfl fun qz _ => Finset.sum_congr rfl fun qy _ =>
    Finset.sum_congr rfl fun qx _ => ?_
  have h1 : (∑ dz, ∑ dy, ∑ dx,
        B qz dz * B qy dy * B qx dx * prescaledSources w jac s qz qy qx 0
          * u 0 dz dy dx)
      = prescaledSources w jac s qz qy qx 0 * interpVal B (u 0) qz qy qx := by
    simp only [interpVal_closed, Finset.mul_sum]
    exact Finset.sum_congr rfl fun dz _ => Finset.sum_congr rfl fun dy _ =>
      Finset.sum_congr rfl fun dx _ => by ring
  have h2 : (∑ dz, ∑ dy, ∑ dx,
        B qz dz * B qy dy * G qx dx * prescaledFluxes w jac f qz qy qx 0 0
          * u 0 dz dy dx)
      = prescaledFluxes w jac f qz qy qx 0 0
          * interpGradRef B G (u 0) qz qy qx 0 := by
    simp only [interpGradRef0_closed, Finset.mul_sum]
    exact Finset.sum_congr rfl fun dz _ => Finset.sum_congr rfl fun dy _ =>
      Finset.sum_congr rfl fun dx _ => by ring
  have h3 : (∑ dz, ∑ dy, ∑ dx,
        B qz dz * G qy dy * B qx dx * prescaledFluxes w jac f qz qy qx 0 1
          * u 0 dz dy dx)
      = prescaledFluxes w jac f qz qy qx 0 1
          * interpGradRef B G (u 0) qz qy qx 1 := by
    simp only [interpGradRef1_closed, Finset.mul_sum]
    exact Finset.sum_congr rfl fun dz _ => Finset.sum_congr rfl fun dy _ =>
      Finset.sum_congr rfl fun dx _ => by ring
  have h4 : (∑ dz, ∑ dy, ∑ dx,
        G qz dz * B qy dy * B qx dx * prescaledFluxes w jac f qz qy qx 0 2
          * u 0 dz dy dx)
      = prescaledFluxes w jac f qz qy qx 0 2
          * interpGradRef B G (u 0) qz qy qx 2 := by
    simp only [interpGradRef2_closed, Finset.mul_sum]
    exact Finset.sum_congr rfl fun dz _ => Finset.sum_congr rfl fun dy _ =>
      Finset.sum_congr rfl fun dx _ => by ring
  have hsplit : (∑ dz, ∑ dy, ∑ dx,
        (B qz dz * B qy dy * B qx dx * prescaledSources w jac s qz qy qx 0
         + B qz dz * B qy dy * G qx dx * prescaledFluxes w jac f qz qy qx 0 0
         + B qz dz * G qy dy * B qx dx * prescaledFluxes w jac f qz qy qx 0 1
         + G qz dz * B qy dy * B qx dx * prescaledFluxes w jac f qz qy qx 0 2)
          * u 0 dz dy dx)
      = prescaledSources w jac s qz qy qx 0 * interpVal B (u 0) qz qy qx
        + prescaledFluxes w jac f qz qy qx 0 0
            * interpGradRef B G (u 0) qz qy qx 0
        + prescaledFluxes w jac f qz qy qx 0 1
            * interpGradRef B G (u 0) qz qy qx 1
        + prescaledFluxes w jac f qz qy qx 0 2
            * interpGradRef B G (u 0) qz qy qx 2 := by
    rw [← h1, ← h2, ← h3, ← h4]
    simp only [add_mul, Finset.sum_add_distrib]
  rw [hsplit]
  simp only [prescaledSources, prescaledFluxes, dvAt, inv3_jInterpAt,
    Fin.sum_univ_three]
  ring
